import Mathlib

/-!
Shallow embedding of the approval-workflow engine of the Expense_Management
repository (backend controllers: approval and expense controllers).  Database
tables become lists of records; Sequelize `findOne`/`findByPk` become
`List.find?`; row updates become `List.map` guarded by the row id; `create`
appends a record; a transaction that rolls back is modelled by the operation
returning `.error` (the caller keeps the previous state).  Timestamps are
abstract `Nat` instants passed in as `now`; freshly assigned primary keys are
passed in as explicit parameters.  Monetary amounts are `ℚ`
(`amount_in_company_currency`).
-/

/-- Expense lifecycle status (`status` column of the `expenses` table). -/
inductive ExpenseStatus where
  | draft
  | submitted
  | approved
  | rejected
  | paid
deriving DecidableEq, Repr

/-- Approval record status (`status` column of the `approvals` table). -/
inductive ApprovalStatus where
  | pending
  | approved
  | rejected
  | cancelled
deriving DecidableEq, Repr

/-- A user row: id, company, optional direct manager, role, active flag. -/
structure User where
  id : Nat
  company_id : Nat
  manager_id : Option Nat
  role : String
  is_active : Bool
deriving DecidableEq, Repr

/-- One entry of `approval_settings.approval_levels` (sequential mode):
level number, approver-selection strategy (`"manager"` / `"role"` / anything
else falls back to `approver_id`), role name, optional specific approver. -/
structure ApprovalLevel where
  level : Nat
  approver_type : String
  role : String
  approver_id : Option Nat
deriving DecidableEq, Repr

/-- One entry of `approval_settings.approval_rules` (conditional mode).
`max_amount = none` models an absent/null `max_amount` in the JSON
configuration; a present numeric value is `some m`.  The source checks the
JavaScript-falsy condition `!rule.max_amount`, which is true both for an
absent value and for the number `0`. -/
structure ApprovalRule where
  min_amount : ℚ
  max_amount : Option ℚ
  approver_id : Option Nat
deriving DecidableEq, Repr

/-- The company's JSON `approval_settings` blob. -/
structure ApprovalSettings where
  enabled : Bool
  workflow_type : String
  approval_levels : List ApprovalLevel
  approval_rules : List ApprovalRule
deriving DecidableEq, Repr

/-- A company row; `approval_settings = none` models a company with no
workflow configuration stored. -/
structure Company where
  id : Nat
  approval_settings : Option ApprovalSettings
deriving DecidableEq, Repr

/-- An expense row, restricted to the columns the workflow engine reads or
writes. -/
structure Expense where
  id : Nat
  user_id : Nat
  company_id : Nat
  title : String
  amount_in_company_currency : ℚ
  status : ExpenseStatus
  submitted_at : Option Nat
  approved_at : Option Nat
  rejected_at : Option Nat
deriving DecidableEq, Repr

/-- An approval row. -/
structure Approval where
  id : Nat
  expense_id : Nat
  approver_id : Nat
  approval_level : Nat
  company_id : Nat
  status : ApprovalStatus
  approved_at : Option Nat
  rejected_at : Option Nat
  updated_at : Option Nat
  comments : Option String
  rejection_reason : Option String
  delegated_by : Option Nat
  delegation_comments : Option String
  delegated_at : Option Nat
deriving DecidableEq, Repr

/-- The persistent state the engine reads and writes: the four tables. -/
structure DB where
  users : List User
  companies : List Company
  expenses : List Expense
  approvals : List Approval
deriving DecidableEq, Repr

/-- `User.findByPk`. -/
def DB.findUser (db : DB) (uid : Nat) : Option User :=
  db.users.find? (fun u => u.id == uid)

/-- `Company.findByPk`. -/
def DB.findCompany (db : DB) (cid : Nat) : Option Company :=
  db.companies.find? (fun c => c.id == cid)

/-- `Expense.findByPk` (also the eager-loaded `approval.expense`
association, which resolves the expense row by `expense_id`). -/
def DB.findExpense (db : DB) (eid : Nat) : Option Expense :=
  db.expenses.find? (fun e => e.id == eid)

/-- The `WHERE` clause of the approval lookup shared by approve / reject /
delegate: by id, acting approver, company, and `status: 'pending'`. -/
def approvalWhere (approvalId userId companyId : Nat) (a : Approval) : Bool :=
  a.id == approvalId && a.approver_id == userId &&
    a.company_id == companyId && a.status == ApprovalStatus.pending

/-- `Approval.findOne` with the shared pending-approval `WHERE` clause. -/
def DB.findPendingApproval (db : DB) (approvalId userId companyId : Nat) :
    Option Approval :=
  db.approvals.find? (approvalWhere approvalId userId companyId)

/-- Row update on the `expenses` table, keyed by expense id
(`expense.update({...})`). -/
def DB.updateExpenseRow (db : DB) (eid : Nat) (f : Expense → Expense) : DB :=
  { db with expenses := db.expenses.map (fun e => if e.id == eid then f e else e) }

/-- Row update on the `approvals` table, keyed by approval id
(`approval.update({...})`). -/
def DB.updateApprovalRow (db : DB) (aid : Nat) (f : Approval → Approval) : DB :=
  { db with approvals := db.approvals.map (fun a => if a.id == aid then f a else a) }

/-- Bulk `Approval.update` guarded by an arbitrary `WHERE` predicate. -/
def DB.updateApprovalsWhere (db : DB) (p : Approval → Bool)
    (f : Approval → Approval) : DB :=
  { db with approvals := db.approvals.map (fun a => if p a then f a else a) }

/-- Length of a string after trimming surrounding whitespace: the
`comments.trim().length` check of the source, written over the character
list so that it evaluates by kernel reduction. -/
def jsTrimLen (s : String) : Nat :=
  ((s.data.dropWhile Char.isWhitespace).reverse.dropWhile
    Char.isWhitespace).length

/-- `Approval.create` appends a row. -/
def DB.addApproval (db : DB) (a : Approval) : DB :=
  { db with approvals := db.approvals ++ [a] }

/-- The conditional-mode rule test of the source, shared verbatim by
`getNextApprover` and `getFirstApprover`:
`expense.amount_in_company_currency >= rule.min_amount &&
 (!rule.max_amount || expense.amount_in_company_currency <= rule.max_amount)`.
`!rule.max_amount` is JavaScript falsiness: it holds when `max_amount` is
absent and also when it is the number `0`. -/
def ruleMatches (amount : ℚ) (r : ApprovalRule) : Bool :=
  decide (r.min_amount ≤ amount) &&
    (match r.max_amount with
     | none => true
     | some m => decide (m = 0) || decide (amount ≤ m))

/-- The active same-company users holding a given role
(`User.findAll({where: {company_id, role, is_active: true}})`), in table
order. -/
def activeRoleUsers (db : DB) (companyId : Nat) (role : String) : List User :=
  db.users.filter (fun u =>
    u.company_id == companyId && u.role == role && u.is_active)

/-- Resolve one sequential-mode level exactly as both resolvers do:
`"manager"` follows the submitter's `manager_id` (an explicit `return` once a
manager id exists, even if the manager row is missing), `"role"` returns the
first active role holder (`approvers[0]`, an explicit `return` even when the
list is empty), otherwise a truthy `approver_id` is looked up directly.
`none` here means control fell through the branch without returning. -/
def resolveLevelApprover (db : DB) (expense : Expense) (lvl : ApprovalLevel) :
    Option (Option User) :=
  if lvl.approver_type == "manager" then
    match db.findUser expense.user_id with
    | some emp =>
      match emp.manager_id with
      | some mid => some (db.findUser mid)
      | none => none
    | none => none
  else if lvl.approver_type == "role" then
    some (activeRoleUsers db expense.company_id lvl.role).head?
  else
    match lvl.approver_id with
    | some aid => some (db.findUser aid)
    | none => none

/-- `getNextApprover(expense, currentLevel)` of the approval controller:
resolves the approver for level `currentLevel + 1`.  It returns `null` when
the company or its `approval_settings` is missing; it does NOT consult the
`enabled` flag.  Sequential mode looks up the level record for
`currentLevel + 1`; conditional mode scans `approval_rules` for the first
match of `ruleMatches`; any other workflow type reaches the final
`return null`. -/
def getNextApprover (db : DB) (expense : Expense) (currentLevel : Nat) :
    Option User :=
  match db.findCompany expense.company_id with
  | none => none
  | some company =>
    match company.approval_settings with
    | none => none
    | some s =>
      if s.workflow_type == "sequential" then
        match s.approval_levels.find? (fun l => l.level == currentLevel + 1) with
        | none => none
        | some nextLevel =>
          match resolveLevelApprover db expense nextLevel with
          | some result => result
          | none => none
      else if s.workflow_type == "conditional" then
        match s.approval_rules.find?
            (ruleMatches expense.amount_in_company_currency) with
        | some r =>
          match r.approver_id with
          | some aid => db.findUser aid
          | none => none
        | none => none
      else none

/-- The trailing default of `getFirstApprover`: `// Default: require manager
approval if no specific rules` — look up the submitter and return their
direct manager when one is set, else `null`. -/
def defaultManagerApprover (db : DB) (expense : Expense) : Option User :=
  match db.findUser expense.user_id with
  | some emp =>
    match emp.manager_id with
    | some mid => db.findUser mid
    | none => none
  | none => none

/-- `getFirstApprover(expense, company)` of the expense controller.  Returns
`null` when `approval_settings` is absent or not `enabled`.  Sequential mode:
no level-1 record is an early `return null`; a level-1 record is resolved by
strategy, and only branches that do not `return` fall through to the
manager-approval default at the bottom.  Conditional mode: the first matching
rule with a truthy `approver_id` is looked up; otherwise control falls
through to the same default. -/
def getFirstApprover (db : DB) (expense : Expense) (company : Company) :
    Option User :=
  match company.approval_settings with
  | none => none
  | some s =>
    if !s.enabled then none
    else if s.workflow_type == "sequential" then
      match s.approval_levels.find? (fun l => l.level == 1) with
      | none => none
      | some firstLevel =>
        match resolveLevelApprover db expense firstLevel with
        | some result => result
        | none => defaultManagerApprover db expense
    else if s.workflow_type == "conditional" then
      match s.approval_rules.find?
          (ruleMatches expense.amount_in_company_currency) with
      | some r =>
        match r.approver_id with
        | some aid => db.findUser aid
        | none => defaultManagerApprover db expense
      | none => defaultManagerApprover db expense
    else defaultManagerApprover db expense

/-- Failure kinds of the engine's operations, as the specification classifies
the controllers' error responses: a missing target row (HTTP 404), a guard
failure on the target's state (`InvalidStateTransition`, HTTP 400 with a
"not in ... status" message), and an input validation failure
(`ValidationError`, HTTP 400). -/
inductive WfError where
  | notFound
  | invalidStateTransition
  | validationError
deriving DecidableEq, Repr

/-- The database of record after an operation: on `.ok` the new state, on
`.error` the transaction rolled back, so the previous state. -/
def resultState (db : DB) (r : Except WfError DB) : DB :=
  match r with
  | .ok db2 => db2
  | .error _ => db

/-- `submitExpense` of the expense controller.  Finds the caller's own draft
expense, loads the company, and asks `getFirstApprover`: with no approver the
expense auto-approves (`status`, `submitted_at`, `approved_at` set, no
Approval row); with an approver a level-1 pending Approval is created and the
expense becomes `submitted` with `submitted_at` set.  All writes are one
transaction. -/
def submitExpense (db : DB) (userId companyId expenseId : Nat) (now : Nat)
    (newApprovalId : Nat) : Except WfError DB :=
  match db.expenses.find? (fun e =>
      e.id == expenseId && e.user_id == userId && e.company_id == companyId) with
  | none => .error .notFound
  | some expense =>
    if expense.status ≠ ExpenseStatus.draft then .error .invalidStateTransition
    else
      match db.findCompany companyId with
      | none => .error .notFound
      | some company =>
        match getFirstApprover db expense company with
        | none =>
          .ok (db.updateExpenseRow expense.id (fun e =>
            { e with status := ExpenseStatus.approved,
                     submitted_at := some now, approved_at := some now }))
        | some firstApprover =>
          .ok ((db.addApproval
            { id := newApprovalId, expense_id := expense.id,
              approver_id := firstApprover.id, approval_level := 1,
              company_id := expense.company_id,
              status := ApprovalStatus.pending,
              approved_at := none, rejected_at := none, updated_at := none,
              comments := none, rejection_reason := none,
              delegated_by := none, delegation_comments := none,
              delegated_at := none }).updateExpenseRow expense.id (fun e =>
            { e with status := ExpenseStatus.submitted,
                     submitted_at := some now }))

/-- `approveExpense` of the approval controller.  Finds the caller's pending
Approval (with its expense), requires the expense to be `submitted`, marks
the Approval `approved` (timestamp, optional comment), then asks
`getNextApprover` at the Approval's level: with a next approver a pending
Approval at `level + 1` is created and the expense is written back as
`submitted`; with none the expense transitions to `approved` with
`approved_at` set.  All writes are one transaction. -/
def approveExpense (db : DB) (userId companyId approvalId : Nat)
    (comments : Option String) (now : Nat) (newApprovalId : Nat) :
    Except WfError DB :=
  match db.findPendingApproval approvalId userId companyId with
  | none => .error .notFound
  | some approval =>
    match db.findExpense approval.expense_id with
    | none => .error .notFound
    | some expense =>
      if expense.status ≠ ExpenseStatus.submitted then
        .error .invalidStateTransition
      else
        let db1 := db.updateApprovalRow approval.id (fun a =>
          { a with status := ApprovalStatus.approved,
                   approved_at := some now, comments := comments })
        match getNextApprover db1 expense approval.approval_level with
        | some nextApprover =>
          .ok ((db1.addApproval
            { id := newApprovalId, expense_id := expense.id,
              approver_id := nextApprover.id,
              approval_level := approval.approval_level + 1,
              company_id := expense.company_id,
              status := ApprovalStatus.pending,
              approved_at := none, rejected_at := none, updated_at := none,
              comments := none, rejection_reason := none,
              delegated_by := none, delegation_comments := none,
              delegated_at := none }).updateExpenseRow expense.id (fun e =>
            { e with status := ExpenseStatus.submitted }))
        | none =>
          .ok (db1.updateExpenseRow expense.id (fun e =>
            { e with status := ExpenseStatus.approved,
                     approved_at := some now }))

/-- `rejectExpense` of the approval controller.  First validates the comment:
`!comments || comments.trim().length < 10` fails with the
minimum-10-characters error before any lookup or write.  Then finds the
caller's pending Approval, requires the expense to be `submitted`, marks the
Approval `rejected` (timestamp, comments, optional reason), marks the expense
`rejected` with `rejected_at`, and cancels every other still-pending Approval
of the same expense — all in one transaction. -/
def rejectExpense (db : DB) (userId companyId approvalId : Nat)
    (comments : String) (reason : Option String) (now : Nat) :
    Except WfError DB :=
  if jsTrimLen comments < 10 then .error .validationError
  else
    match db.findPendingApproval approvalId userId companyId with
    | none => .error .notFound
    | some approval =>
      match db.findExpense approval.expense_id with
      | none => .error .notFound
      | some expense =>
        if expense.status ≠ ExpenseStatus.submitted then
          .error .invalidStateTransition
        else
          let db1 := db.updateApprovalRow approval.id (fun a =>
            { a with status := ApprovalStatus.rejected,
                     rejected_at := some now, comments := some comments,
                     rejection_reason := reason })
          let db2 := db1.updateExpenseRow expense.id (fun e =>
            { e with status := ExpenseStatus.rejected,
                     rejected_at := some now })
          .ok (db2.updateApprovalsWhere (fun a =>
              a.expense_id == expense.id &&
                a.status == ApprovalStatus.pending && a.id != approval.id)
            (fun a =>
              { a with status := ApprovalStatus.cancelled,
                       updated_at := some now }))

/-- One per-item report of the bulk result: id of a failed item with the
reason string the source pushes. -/
structure BulkFailure where
  approval_id : Nat
  reason : String
deriving DecidableEq, Repr

/-- The accumulated bulk result: the evolving shared-transaction state and
the `approved` / `failed` report lists (each appended in iteration order). -/
structure BulkState where
  db : DB
  approved : List Nat
  failed : List BulkFailure
deriving DecidableEq, Repr

/-- One iteration of the `for (const approvalId of approval_ids)` loop of
`bulkApproveExpenses`: the caller's pending Approval (with its expense) must
exist with the expense `submitted`, else the id is reported failed and the
loop continues; on success the Approval is marked `approved` and, only when
`getNextApprover` finds no next approver, the expense is written `approved` —
no next-level Approval is ever created here.  Every write lands in the single
shared transaction `acc.db`. -/
def bulkApproveStep (userId companyId : Nat) (comments : Option String)
    (now : Nat) (acc : BulkState) (approvalId : Nat) : BulkState :=
  match acc.db.findPendingApproval approvalId userId companyId with
  | none =>
    { acc with failed := acc.failed ++
        [{ approval_id := approvalId,
           reason := "Approval not found or already processed" }] }
  | some approval =>
    match acc.db.findExpense approval.expense_id with
    | none =>
      { acc with failed := acc.failed ++
          [{ approval_id := approvalId,
             reason := "Approval not found or already processed" }] }
    | some expense =>
      if expense.status ≠ ExpenseStatus.submitted then
        { acc with failed := acc.failed ++
            [{ approval_id := approvalId,
               reason := "Approval not found or already processed" }] }
      else
        let db1 := acc.db.updateApprovalRow approval.id (fun a =>
          { a with status := ApprovalStatus.approved,
                   approved_at := some now, comments := comments })
        let db2 :=
          match getNextApprover db1 expense approval.approval_level with
          | some _ => db1
          | none =>
            db1.updateExpenseRow expense.id (fun e =>
              { e with status := ExpenseStatus.approved,
                       approved_at := some now })
        { db := db2, approved := acc.approved ++ [approvalId],
          failed := acc.failed }

/-- `bulkApproveExpenses`: iterates the given approval ids sequentially with
`bulkApproveStep` inside ONE shared transaction, catching each item's failure
into the report instead of aborting the loop, and commits whatever state the
loop produced. -/
def bulkApproveExpenses (db : DB) (userId companyId : Nat)
    (approvalIds : List Nat) (comments : Option String) (now : Nat) :
    BulkState :=
  approvalIds.foldl (bulkApproveStep userId companyId comments now)
    { db := db, approved := [], failed := [] }

/-- `delegateApproval` of the approval controller.  The delegate must be an
active user of the caller's company (else a validation failure with no
write); the target must be the caller's pending Approval (else not-found,
transaction rolled back).  On success only the Approval's `approver_id` and
the delegation metadata columns (`delegated_by`, `delegation_comments`,
`delegated_at`) are written. -/
def delegateApproval (db : DB) (userId companyId approvalId delegateTo : Nat)
    (comments : Option String) (now : Nat) : Except WfError DB :=
  match db.users.find? (fun u =>
      u.id == delegateTo && u.company_id == companyId && u.is_active) with
  | none => .error .validationError
  | some _ =>
    match db.findPendingApproval approvalId userId companyId with
    | none => .error .notFound
    | some approval =>
      .ok (db.updateApprovalRow approval.id (fun a =>
        { a with approver_id := delegateTo,
                 delegated_by := some userId,
                 delegation_comments := comments,
                 delegated_at := some now }))

/-- The updatable columns of `updateExpense` that the workflow spec cares
about; currency conversion and category validation are delegated to external
collaborators (HTTP rate service, category table) that are out of the
engine's scope, so this embedding carries the representative `title` update. -/
structure ExpenseUpdates where
  title : Option String
deriving DecidableEq, Repr

/-- Apply the `updates` object to an expense row (`expense.update(updates)`). -/
def applyExpenseUpdates (u : ExpenseUpdates) (e : Expense) : Expense :=
  { e with title := u.title.getD e.title }

/-- `updateExpense` of the expense controller.  The lookup is scoped to the
caller's company, and for the `employee` role additionally to the caller's
own expenses.  The status guard rejects any expense whose status is
`approved`, `rejected` or `paid` ("Cannot update expense in current
status"); `draft` and `submitted` pass the guard and the row is updated. -/
def updateExpense (db : DB) (userId companyId : Nat) (callerRole : String)
    (expenseId : Nat) (updates : ExpenseUpdates) : Except WfError DB :=
  match db.expenses.find? (fun e =>
      e.id == expenseId && e.company_id == companyId &&
        (callerRole != "employee" || e.user_id == userId)) with
  | none => .error .notFound
  | some expense =>
    if expense.status == ExpenseStatus.approved ||
        expense.status == ExpenseStatus.rejected ||
        expense.status == ExpenseStatus.paid then
      .error .invalidStateTransition
    else
      .ok (db.updateExpenseRow expense.id (applyExpenseUpdates updates))

/-- Lookup of an approval row by primary key alone. -/
def DB.findApprovalById (db : DB) (aid : Nat) : Option Approval :=
  db.approvals.find? (fun a => a.id == aid)

/-- The shape of every Approval row the engine creates: pending, with the
given expense, approver and level, and all decision / delegation columns
empty. -/
def newApprovalRecord (newId : Nat) (exp : Expense) (approverId lvl : Nat) :
    Approval :=
  { id := newId, expense_id := exp.id, approver_id := approverId,
    approval_level := lvl, company_id := exp.company_id,
    status := ApprovalStatus.pending,
    approved_at := none, rejected_at := none, updated_at := none,
    comments := none, rejection_reason := none,
    delegated_by := none, delegation_comments := none, delegated_at := none }

/-- The Approval row as the approve transition leaves it: `approved`,
decision timestamp, optional comment, everything else untouched. -/
def approvedRow (now : Nat) (comments : Option String) (a : Approval) : Approval :=
  { a with status := ApprovalStatus.approved,
           approved_at := some now, comments := comments }

/-- What a successful approve call must produce (claim C2's postcondition):
the result commits a state in which the acted-on Approval is `approved` with
timestamp and comment; then, depending on what approver resolution returns
for the next level, either a fresh `pending` Approval at `level + 1` exists
and the Expense is still `submitted`, or the Expense is `approved` with an
approval timestamp. -/
def approveOutcome (db : DB) (appr : Approval) (exp : Expense)
    (comments : Option String) (now newApprovalId : Nat)
    (r : Except WfError DB) : Prop :=
  ∃ db2, r = Except.ok db2 ∧
    db2.findApprovalById appr.id = some (approvedRow now comments appr) ∧
    (match getNextApprover db exp appr.approval_level with
     | some next =>
       newApprovalRecord newApprovalId exp next.id (appr.approval_level + 1)
         ∈ db2.approvals ∧
       db2.findExpense exp.id =
         some { exp with status := ExpenseStatus.submitted }
     | none =>
       db2.findExpense exp.id =
         some { exp with status := ExpenseStatus.approved,
                          approved_at := some now })

/-- The Approval row as the reject transition's sibling-cancellation sweep
leaves a still-pending sibling: `cancelled` with a touched `updated_at`. -/
def cancelledRow (now : Nat) (a : Approval) : Approval :=
  { a with status := ApprovalStatus.cancelled, updated_at := some now }

/-- The Approval row as the reject transition leaves its target: `rejected`,
decision timestamp, the mandatory comments, the optional reason. -/
def rejectedRow (now : Nat) (comments : String) (reason : Option String)
    (a : Approval) : Approval :=
  { a with status := ApprovalStatus.rejected, rejected_at := some now,
           comments := some comments, rejection_reason := reason }

/-- What a successful reject call must produce (claim C3's postcondition):
the target Approval is `rejected`, the parent Expense is `rejected`
immediately, and every other still-pending Approval of the same expense is
`cancelled` in the same committed state. -/
def rejectOutcome (db : DB) (appr : Approval) (exp : Expense)
    (comments : String) (reason : Option String) (now : Nat)
    (r : Except WfError DB) : Prop :=
  ∃ db2, r = Except.ok db2 ∧
    db2.findApprovalById appr.id = some (rejectedRow now comments reason appr) ∧
    db2.findExpense exp.id =
      some { exp with status := ExpenseStatus.rejected,
                       rejected_at := some now } ∧
    ∀ a ∈ db.approvals, a.expense_id = exp.id →
      a.status = ApprovalStatus.pending → a.id ≠ appr.id →
      cancelledRow now a ∈ db2.approvals

/-- Fixture: a company-1 employee whose direct manager is user 2. -/
def seqEmployee : User := { id := 1, company_id := 1, manager_id := some 2, role := "employee", is_active := true }

/-- Fixture: the manager, user 2 of company 1. -/
def seqManager : User := { id := 2, company_id := 1, manager_id := none, role := "manager", is_active := true }

/-- Fixture: an admin, user 3 of company 1. -/
def seqAdmin : User := { id := 3, company_id := 1, manager_id := none, role := "admin", is_active := true }

/-- Fixture: sequential level 1, approved by the specific user 2. -/
def seqLevel1 : ApprovalLevel := { level := 1, approver_type := "specific", role := "", approver_id := some 2 }

/-- Fixture: sequential level 2, approved by the specific user 3. -/
def seqLevel2 : ApprovalLevel := { level := 2, approver_type := "specific", role := "", approver_id := some 3 }

/-- Fixture: an enabled two-level sequential workflow configuration. -/
def seqSettings : ApprovalSettings := { enabled := true, workflow_type := "sequential", approval_levels := [seqLevel1, seqLevel2], approval_rules := [] }

/-- Fixture: company 1 configured with `seqSettings`. -/
def seqCompany : Company := { id := 1, approval_settings := some seqSettings }

/-- Fixture: a submitted expense of employee 1 for 50 in company currency. -/
def seqExpense : Expense := { id := 10, user_id := 1, company_id := 1, title := "Team lunch", amount_in_company_currency := 50, status := ExpenseStatus.submitted, submitted_at := some 1, approved_at := none, rejected_at := none }

/-- Fixture: the pending level-1 Approval (id 20) assigned to user 2. -/
def seqApproval : Approval := newApprovalRecord 20 seqExpense 2 1

/-- Fixture: the database with the two-level sequential scenario. -/
def seqDb : DB := { users := [seqEmployee, seqManager, seqAdmin], companies := [seqCompany], expenses := [seqExpense], approvals := [seqApproval] }

/-- Fixture: the sequential scenario with the expense still in `draft` and a
(stray) pending Approval — exercises the state guards of approve and reject. -/
def draftExpense : Expense := { seqExpense with status := ExpenseStatus.draft, submitted_at := none }

/-- Fixture: the guard-check database: expense 10 is `draft` while Approval
20 is still `pending`. -/
def draftDb : DB := { users := [seqEmployee, seqManager, seqAdmin], companies := [seqCompany], expenses := [draftExpense], approvals := [seqApproval] }

/-- The Approval row as delegation leaves it: reassigned to the delegate with
the delegation metadata columns filled, everything else (status, level, the
decision columns) untouched. -/
def delegatedRow (userId delegateTo : Nat) (comments : Option String)
    (now : Nat) (a : Approval) : Approval :=
  { a with approver_id := delegateTo, delegated_by := some userId,
           delegation_comments := comments, delegated_at := some now }

/-- What an auto-approved submit must produce (the no-approver branch of
claim C1): the committed state has the same approvals table and the expense
`approved` with both `submitted_at` and `approved_at` set to `now`. -/
def autoApprovedOutcome (db : DB) (exp : Expense) (now : Nat)
    (r : Except WfError DB) : Prop :=
  ∃ db2, r = Except.ok db2 ∧ db2.approvals = db.approvals ∧
    db2.findExpense exp.id =
      some { exp with status := ExpenseStatus.approved,
                       submitted_at := some now, approved_at := some now }

/-- What a submit that found a first approver must produce: one new pending
level-1 Approval for that approver and the expense `submitted`. -/
def submittedOutcome (db : DB) (exp : Expense)
    (approverId now newApprovalId : Nat) (r : Except WfError DB) : Prop :=
  ∃ db2, r = Except.ok db2 ∧
    newApprovalRecord newApprovalId exp approverId 1 ∈ db2.approvals ∧
    db2.approvals.length = db.approvals.length + 1 ∧
    db2.findExpense exp.id =
      some { exp with status := ExpenseStatus.submitted,
                       submitted_at := some now }

/-- Fixture: an enabled conditional configuration with an empty rule list. -/
def condNoRuleSettings : ApprovalSettings := { enabled := true, workflow_type := "conditional", approval_levels := [], approval_rules := [] }

/-- Fixture: company 1 with the empty-rule conditional configuration. -/
def condNoRuleCompany : Company := { id := 1, approval_settings := some condNoRuleSettings }

/-- Fixture: employee 1's draft expense for 50. -/
def c1Expense : Expense := { id := 10, user_id := 1, company_id := 1, title := "Team lunch", amount_in_company_currency := 50, status := ExpenseStatus.draft, submitted_at := none, approved_at := none, rejected_at := none }

/-- Fixture: empty-rule conditional company with a managed employee. -/
def c1Db : DB := { users := [seqEmployee, seqManager], companies := [condNoRuleCompany], expenses := [c1Expense], approvals := [] }

/-- Fixture: employee 1 with no direct manager. -/
def loneEmployee : User := { id := 1, company_id := 1, manager_id := none, role := "employee", is_active := true }

/-- Fixture: empty-rule conditional company whose submitter has no manager. -/
def c1LoneDb : DB := { users := [loneEmployee], companies := [condNoRuleCompany], expenses := [c1Expense], approvals := [] }

/-- Fixture: a present but disabled two-level sequential configuration. -/
def disabledSettings : ApprovalSettings := { enabled := false, workflow_type := "sequential", approval_levels := [seqLevel1, seqLevel2], approval_rules := [] }

/-- Fixture: company 1 with the disabled configuration. -/
def disabledCompany : Company := { id := 1, approval_settings := some disabledSettings }

/-- Fixture: the disabled-configuration database. -/
def disabledDb : DB := { users := [seqEmployee, seqManager, seqAdmin], companies := [disabledCompany], expenses := [c1Expense], approvals := [] }

/-- Fixture: an enabled sequential configuration with no levels at all. -/
def emptySeqSettings : ApprovalSettings := { enabled := true, workflow_type := "sequential", approval_levels := [], approval_rules := [] }

/-- Fixture: company 1 with the level-free sequential configuration. -/
def emptySeqCompany : Company := { id := 1, approval_settings := some emptySeqSettings }

/-- Fixture: the level-free sequential database. -/
def emptySeqDb : DB := { users := [seqEmployee, seqManager], companies := [emptySeqCompany], expenses := [c1Expense], approvals := [] }

/-- Fixture: company 1 with no stored workflow configuration at all. -/
def noCfgCompany : Company := { id := 1, approval_settings := none }

/-- Fixture: the configuration-free database. -/
def noCfgDb : DB := { users := [seqEmployee, seqManager], companies := [noCfgCompany], expenses := [c1Expense], approvals := [] }

/-- Fixture: a database with no company row for the expense's company. -/
def emptyCompanyDb : DB := { users := [seqEmployee], companies := [], expenses := [c1Expense], approvals := [] }

/-- The range test exactly as claim C4 words it: the closed interval from
`min_amount` to `max_amount` contains the amount, both bounds inclusive, and
an ABSENT `max_amount` (and only an absent one) meaning unbounded above. -/
def ruleContainsSpec (r : ApprovalRule) (amount : ℚ) : Bool :=
  decide (r.min_amount ≤ amount) &&
    (match r.max_amount with
     | none => true
     | some m => decide (amount ≤ m))

/-- The amended range test: like `ruleContainsSpec`, except that a
`max_amount` equal to 0 — a JavaScript-falsy value — also means unbounded
above, matching the source's `!rule.max_amount` check. -/
def ruleContainsAmended (r : ApprovalRule) (amount : ℚ) : Bool :=
  decide (r.min_amount ≤ amount) &&
    (match r.max_amount with
     | none => true
     | some m => if m = 0 then true else decide (amount ≤ m))

/-- Fixture: a conditional rule with `min_amount 0`, `max_amount 0`. -/
def zeroMaxRule : ApprovalRule := { min_amount := 0, max_amount := some 0, approver_id := some 2 }

/-- Fixture: an enabled conditional configuration with just `zeroMaxRule`. -/
def zeroCondSettings : ApprovalSettings := { enabled := true, workflow_type := "conditional", approval_levels := [], approval_rules := [zeroMaxRule] }

/-- Fixture: company 1 with the zero-max conditional configuration. -/
def zeroCondCompany : Company := { id := 1, approval_settings := some zeroCondSettings }

/-- Fixture: employee 1's draft expense for 5 in company currency. -/
def c4Expense : Expense := { c1Expense with amount_in_company_currency := 5 }

/-- Fixture: the zero-max conditional database. -/
def zeroCondDb : DB := { users := [seqEmployee, seqManager], companies := [zeroCondCompany], expenses := [c4Expense], approvals := [] }

/-- Fixture: the spec's boundary example rule, range 0 to 100, approver 2. -/
def boundaryRuleA : ApprovalRule := { min_amount := 0, max_amount := some 100, approver_id := some 2 }

/-- Fixture: the follow-up rule, 101 and up, unbounded, approver 3. -/
def boundaryRuleB : ApprovalRule := { min_amount := 101, max_amount := none, approver_id := some 3 }

/-- Fixture: the two-rule conditional configuration of the boundary example. -/
def boundarySettings : ApprovalSettings := { enabled := true, workflow_type := "conditional", approval_levels := [], approval_rules := [boundaryRuleA, boundaryRuleB] }

/-- Fixture: company 1 with the boundary-example configuration. -/
def boundaryCompany : Company := { id := 1, approval_settings := some boundarySettings }

/-- Fixture: an expense of exactly 100 in company currency. -/
def boundaryExpense : Expense := { c1Expense with amount_in_company_currency := 100 }

/-- Fixture: the boundary-example database. -/
def boundaryDb : DB := { users := [seqEmployee, seqManager, seqAdmin], companies := [boundaryCompany], expenses := [boundaryExpense], approvals := [] }

/-- The error a failed operation reports, if it failed. -/
def resultError (r : Except WfError DB) : Option WfError :=
  match r with
  | .ok _ => none
  | .error e => some e

/-- Fixture: employee 1's expense after a rejection. -/
def rejectedExpense : Expense := { c1Expense with status := ExpenseStatus.rejected, rejected_at := some 3 }

/-- Fixture: the database holding the rejected expense. -/
def c9Db : DB := { users := [seqEmployee, seqManager], companies := [seqCompany], expenses := [rejectedExpense], approvals := [] }

/-- Fixture: an update payload changing the title. -/
def sampleUpdates : ExpenseUpdates := { title := some "Team lunch with client" }

/-- Fixture: a single-level sequential configuration (user 2 approves). -/
def oneLevelSettings : ApprovalSettings := { enabled := true, workflow_type := "sequential", approval_levels := [seqLevel1], approval_rules := [] }

/-- Fixture: company 1 with the single-level configuration. -/
def oneLevelCompany : Company := { id := 1, approval_settings := some oneLevelSettings }

/-- Fixture: the single-level database (submitted expense, pending Approval
20). -/
def oneLevelDb : DB := { users := [seqEmployee, seqManager], companies := [oneLevelCompany], expenses := [seqExpense], approvals := [seqApproval] }

theorem find?_map_pred {α : Type} (g : α → α) (p : α → Bool)
    (hpg : ∀ a, p (g a) = p a) (l : List α) :
    (l.map g).find? p = (l.find? p).map g := by
  induction l with
  | nil => rfl
  | cons x xs ih =>
    by_cases hx : p x = true
    · have hgx : p (g x) = true := by rw [hpg]; exact hx
      rw [List.map_cons, List.find?_cons_of_pos _ hgx,
        List.find?_cons_of_pos _ hx, Option.map_some']
    · have hx' : ¬ p x = true := hx
      have hgx : ¬ p (g x) = true := by rw [hpg]; exact hx
      rw [List.map_cons, List.find?_cons_of_neg _ hgx,
        List.find?_cons_of_neg _ hx', ih]

theorem find?_strengthen {α : Type} (p q : α → Bool)
    (himp : ∀ a, q a = true → p a = true) (l : List α) (x : α)
    (hfind : l.find? p = some x) (hqx : q x = true) : l.find? q = some x := by
  induction l with
  | nil => simp at hfind
  | cons y ys ih =>
    by_cases hqy : q y = true
    · have hpy : p y = true := himp y hqy
      rw [List.find?_cons_of_pos _ hpy] at hfind
      rw [List.find?_cons_of_pos _ hqy]
      exact hfind
    · rw [List.find?_cons_of_neg _ hqy]
      by_cases hpy : p y = true
      · rw [List.find?_cons_of_pos _ hpy] at hfind
        cases hfind
        exact absurd hqx hqy
      · rw [List.find?_cons_of_neg _ hpy] at hfind
        exact ih hfind

theorem find?_update_by_id {α : Type} (idOf : α → Nat) (aid : Nat)
    (f : α → α) (hf : ∀ a, idOf (f a) = idOf a) (l : List α) (x : α)
    (h : l.find? (fun a => idOf a == aid) = some x) :
    (l.map (fun a => if idOf a == aid then f a else a)).find?
      (fun a => idOf a == aid) = some (f x) := by
  have hx : (idOf x == aid) = true := by
    have := List.find?_some h
    simpa using this
  have hpg : ∀ a, ((fun a => idOf a == aid)
      ((fun a => if idOf a == aid then f a else a) a)) =
      ((fun a => idOf a == aid) a) := by
    intro a
    by_cases ha : (idOf a == aid) = true
    · simp [ha, hf]
    · simp only [Bool.not_eq_true] at ha
      simp [ha]
  rw [find?_map_pred _ _ hpg, h, Option.map_some']
  simp only [hx, if_true]

theorem find?_append_left {α : Type} (p : α → Bool) (l1 l2 : List α) (x : α)
    (h : l1.find? p = some x) : (l1 ++ l2).find? p = some x := by
  rw [List.find?_append, h]
  rfl

theorem findPendingApproval_intro (db : DB) (approvalId userId companyId : Nat)
    (appr : Approval) (h : db.findApprovalById approvalId = some appr)
    (ha : appr.approver_id = userId) (hc : appr.company_id = companyId)
    (hs : appr.status = ApprovalStatus.pending) :
    db.findPendingApproval approvalId userId companyId = some appr := by
  unfold DB.findApprovalById at h
  have hid : (appr.id == approvalId) = true := by
    have := List.find?_some h
    simpa using this
  unfold DB.findPendingApproval
  refine find?_strengthen _ _ ?_ _ _ h ?_
  · intro a hq
    unfold approvalWhere at hq
    simp only [Bool.and_eq_true] at hq
    exact hq.1.1.1
  · unfold approvalWhere
    simp [hid, ha, hc, hs]

theorem getNextApprover_frame_update (db : DB) (aid : Nat)
    (f : Approval → Approval) (e : Expense) (l : Nat) :
    getNextApprover (db.updateApprovalRow aid f) e l = getNextApprover db e l := rfl

theorem findExpense_updateExpenseRow (db : DB) (eid : Nat)
    (f : Expense → Expense) (hf : ∀ e, (f e).id = e.id) (exp : Expense)
    (h : db.findExpense eid = some exp) :
    (db.updateExpenseRow eid f).findExpense eid = some (f exp) :=
  find?_update_by_id Expense.id eid f hf db.expenses exp h

theorem findApprovalById_updateApprovalRow (db : DB) (aid : Nat)
    (f : Approval → Approval) (hf : ∀ a, (f a).id = a.id) (appr : Approval)
    (h : db.findApprovalById aid = some appr) :
    (db.updateApprovalRow aid f).findApprovalById aid = some (f appr) :=
  find?_update_by_id Approval.id aid f hf db.approvals appr h

/-- C2: for every approve call whose target Approval is pending, belongs to
the acting approver, and whose parent Expense is `submitted`, the Approval is
marked approved with timestamp and optional comment; when approver resolution
for the next level returns an approver, a new pending Approval at `level + 1`
is created and the Expense stays `submitted`; when it returns no approver,
the Expense transitions to `approved` with an approval timestamp. -/
theorem approveExpense_spec (db : DB) (userId companyId approvalId : Nat)
    (comments : Option String) (now newApprovalId : Nat)
    (appr : Approval) (exp : Expense)
    (hfind : db.findApprovalById approvalId = some appr)
    (happr : appr.approver_id = userId)
    (hcomp : appr.company_id = companyId)
    (hpend : appr.status = ApprovalStatus.pending)
    (hexp : db.findExpense appr.expense_id = some exp)
    (hsub : exp.status = ExpenseStatus.submitted) :
    approveOutcome db appr exp comments now newApprovalId
      (approveExpense db userId companyId approvalId comments now newApprovalId) := by
  have hpa := findPendingApproval_intro db approvalId userId companyId appr
    hfind happr hcomp hpend
  have hid : appr.id = approvalId := by
    unfold DB.findApprovalById at hfind
    have := List.find?_some hfind
    simpa using this
  have hfind2 : db.findApprovalById appr.id = some appr := by rw [hid]; exact hfind
  have heid : exp.id = appr.expense_id := by
    unfold DB.findExpense at hexp
    have := List.find?_some hexp
    simpa using this
  have hexp2 : db.findExpense exp.id = some exp := by rw [heid]; exact hexp
  unfold approveExpense
  rw [hpa]
  simp only [hexp, hsub]
  rw [if_neg (by simp)]
  rw [getNextApprover_frame_update]
  unfold approveOutcome approvedRow
  have h1 : (db.updateApprovalRow appr.id
      (fun a => { a with status := ApprovalStatus.approved,
                         approved_at := some now,
                         comments := comments })).findApprovalById appr.id =
      some { appr with status := ApprovalStatus.approved,
                       approved_at := some now, comments := comments } :=
    findApprovalById_updateApprovalRow db appr.id
      (fun a => { a with status := ApprovalStatus.approved,
                         approved_at := some now, comments := comments })
      (fun a => rfl) appr hfind2
  cases hnext : getNextApprover db exp appr.approval_level with
  | some next =>
    refine ⟨_, rfl, ?_, ?_, ?_⟩
    · exact find?_append_left _ _ _ _ h1
    · simp [newApprovalRecord, DB.addApproval, DB.updateExpenseRow,
        DB.updateApprovalRow]
    · exact findExpense_updateExpenseRow
        ((db.updateApprovalRow appr.id
          (fun a => { a with status := ApprovalStatus.approved,
                             approved_at := some now,
                             comments := comments })).addApproval
          (newApprovalRecord newApprovalId exp next.id (appr.approval_level + 1)))
        exp.id (fun e => { e with status := ExpenseStatus.submitted })
        (fun e => rfl) exp hexp2
  | none =>
    refine ⟨_, rfl, ?_, ?_⟩
    · exact h1
    · exact findExpense_updateExpenseRow
        (db.updateApprovalRow appr.id
          (fun a => { a with status := ApprovalStatus.approved,
                             approved_at := some now,
                             comments := comments }))
        exp.id (fun e => { e with status := ExpenseStatus.approved,
                                  approved_at := some now })
        (fun e => rfl) exp hexp2

theorem find?_map_where {α : Type} (idOf : α → Nat) (aid : Nat)
    (p : α → Bool) (f : α → α) (hf : ∀ a, idOf (f a) = idOf a)
    (l : List α) (x : α)
    (h : l.find? (fun a => idOf a == aid) = some x) (hpx : p x = false) :
    (l.map (fun a => if p a then f a else a)).find? (fun a => idOf a == aid)
      = some x := by
  have hpg : ∀ a, ((fun a => idOf a == aid)
      ((fun a => if p a then f a else a) a)) =
      ((fun a => idOf a == aid) a) := by
    intro a
    by_cases ha : p a = true
    · simp [ha, hf]
    · simp only [Bool.not_eq_true] at ha
      simp [ha]
  rw [find?_map_pred _ _ hpg, h, Option.map_some', hpx]
  simp

/-- Witness for C2: in the two-level sequential fixture, approver 2's approve
call on Approval 20 satisfies the full approve postcondition. -/
theorem approveExpense_spec_witness :
    seqDb.findApprovalById 20 = some seqApproval ∧
    seqDb.findExpense seqApproval.expense_id = some seqExpense ∧
    seqExpense.status = ExpenseStatus.submitted ∧
    approveOutcome seqDb seqApproval seqExpense (some "ok by me") 7 99
      (approveExpense seqDb 2 1 20 (some "ok by me") 7 99) :=
  ⟨by decide, by decide, by decide,
    approveExpense_spec seqDb 2 1 20 (some "ok by me") 7 99 seqApproval
      seqExpense (by decide) (by decide) (by decide) (by decide) (by decide)
      (by decide)⟩

/-- C3: a reject call with comments shorter than 10 characters after trimming
fails with a validation error and changes nothing; a reject call with valid
comments on the caller's pending Approval of a submitted Expense marks that
Approval rejected, transitions the Expense to rejected immediately, and
cancels every other still-pending Approval of the same expense in the same
committed state. -/
theorem rejectExpense_spec :
    (∀ (db : DB) (userId companyId approvalId : Nat) (comments : String)
       (reason : Option String) (now : Nat),
       jsTrimLen comments < 10 →
       rejectExpense db userId companyId approvalId comments reason now =
         Except.error WfError.validationError ∧
       resultState db
         (rejectExpense db userId companyId approvalId comments reason now) = db) ∧
    (∀ (db : DB) (userId companyId approvalId : Nat) (comments : String)
       (reason : Option String) (now : Nat) (appr : Approval) (exp : Expense),
       10 ≤ jsTrimLen comments →
       db.findApprovalById approvalId = some appr →
       appr.approver_id = userId →
       appr.company_id = companyId →
       appr.status = ApprovalStatus.pending →
       db.findExpense appr.expense_id = some exp →
       exp.status = ExpenseStatus.submitted →
       rejectOutcome db appr exp comments reason now
         (rejectExpense db userId companyId approvalId comments reason now)) := by
  constructor
  · intro db userId companyId approvalId comments reason now hshort
    unfold rejectExpense
    rw [if_pos hshort]
    exact ⟨rfl, rfl⟩
  · intro db userId companyId approvalId comments reason now appr exp
      hlen hfind happr hcomp hpend hexp hsub
    have hpa := findPendingApproval_intro db approvalId userId companyId appr
      hfind happr hcomp hpend
    have hid : appr.id = approvalId := by
      unfold DB.findApprovalById at hfind
      have := List.find?_some hfind
      simpa using this
    have hfind2 : db.findApprovalById appr.id = some appr := by
      rw [hid]; exact hfind
    have heid : exp.id = appr.expense_id := by
      unfold DB.findExpense at hexp
      have := List.find?_some hexp
      simpa using this
    have hexp2 : db.findExpense exp.id = some exp := by rw [heid]; exact hexp
    unfold rejectExpense
    rw [if_neg (by omega)]
    rw [hpa]
    simp only [hexp, hsub]
    rw [if_neg (by simp)]
    unfold rejectOutcome rejectedRow
    have h1 := findApprovalById_updateApprovalRow db appr.id
      (fun a => { a with status := ApprovalStatus.rejected,
                         rejected_at := some now, comments := some comments,
                         rejection_reason := reason })
      (fun a => rfl) appr hfind2
    refine ⟨_, rfl, ?_, ?_, ?_⟩
    · exact find?_map_where Approval.id appr.id
        (fun a => a.expense_id == exp.id &&
          a.status == ApprovalStatus.pending && a.id != appr.id)
        (fun a => { a with status := ApprovalStatus.cancelled,
                           updated_at := some now })
        (fun a => rfl) _ _ h1 (by simp)
    · exact findExpense_updateExpenseRow
        (db.updateApprovalRow appr.id
          (fun a => { a with status := ApprovalStatus.rejected,
                             rejected_at := some now, comments := some comments,
                             rejection_reason := reason }))
        exp.id (fun e => { e with status := ExpenseStatus.rejected,
                                  rejected_at := some now })
        (fun e => rfl) exp hexp2
    · intro a ha haexp hapend hane
      have hbe : (a.id == appr.id) = false := by
        simp [hane]
      have step1 : (fun b : Approval =>
          if b.id == appr.id then
            { b with status := ApprovalStatus.rejected,
                     rejected_at := some now, comments := some comments,
                     rejection_reason := reason }
          else b) a = a := by
        simp [hbe]
      have hmem1 := List.mem_map_of_mem (fun b : Approval =>
          if b.id == appr.id then
            { b with status := ApprovalStatus.rejected,
                     rejected_at := some now, comments := some comments,
                     rejection_reason := reason }
          else b) ha
      rw [step1] at hmem1
      have hmem2 := List.mem_map_of_mem (fun b : Approval =>
          if b.expense_id == exp.id && b.status == ApprovalStatus.pending &&
              b.id != appr.id then
            { b with status := ApprovalStatus.cancelled,
                     updated_at := some now }
          else b) hmem1
      have step2 : (fun b : Approval =>
          if b.expense_id == exp.id && b.status == ApprovalStatus.pending &&
              b.id != appr.id then
            { b with status := ApprovalStatus.cancelled,
                     updated_at := some now }
          else b) a = cancelledRow now a := by
        simp [haexp, hapend, hane, cancelledRow]
      rw [step2] at hmem2
      exact hmem2

/-- Witness for C3: in the fixture, a 5-character comment is refused with no
state change, and a long enough comment rejects Approval 20 with the full
reject postcondition. -/
theorem rejectExpense_spec_witness :
    (jsTrimLen "short" < 10 ∧
     rejectExpense seqDb 2 1 20 "short" none 7 =
       Except.error WfError.validationError) ∧
    (10 ≤ jsTrimLen "Missing receipt, resubmit" ∧
     rejectOutcome seqDb seqApproval seqExpense "Missing receipt, resubmit"
       none 7 (rejectExpense seqDb 2 1 20 "Missing receipt, resubmit" none 7)) :=
  ⟨⟨by decide,
    (rejectExpense_spec.1 seqDb 2 1 20 "short" none 7 (by decide)).1⟩,
   ⟨by decide,
    rejectExpense_spec.2 seqDb 2 1 20 "Missing receipt, resubmit" none 7
      seqApproval seqExpense (by decide) (by decide) (by decide) (by decide)
      (by decide) (by decide) (by decide)⟩⟩

/-- C6: whenever the target Expense is not in the state a transition
requires — `draft` for submit, `submitted` for approve and for reject (the
reject call's comments being otherwise valid) — the operation fails with the
invalid-state-transition error and the database of record is unchanged. -/
theorem invalidStateGuard_spec :
    (∀ (db : DB) (userId companyId expenseId now newApprovalId : Nat)
       (exp : Expense),
       db.expenses.find? (fun e => e.id == expenseId && e.user_id == userId &&
         e.company_id == companyId) = some exp →
       exp.status ≠ ExpenseStatus.draft →
       submitExpense db userId companyId expenseId now newApprovalId =
         Except.error WfError.invalidStateTransition ∧
       resultState db
         (submitExpense db userId companyId expenseId now newApprovalId) = db) ∧
    (∀ (db : DB) (userId companyId approvalId : Nat) (comments : Option String)
       (now newApprovalId : Nat) (appr : Approval) (exp : Expense),
       db.findPendingApproval approvalId userId companyId = some appr →
       db.findExpense appr.expense_id = some exp →
       exp.status ≠ ExpenseStatus.submitted →
       approveExpense db userId companyId approvalId comments now newApprovalId =
         Except.error WfError.invalidStateTransition ∧
       resultState db
         (approveExpense db userId companyId approvalId comments now
           newApprovalId) = db) ∧
    (∀ (db : DB) (userId companyId approvalId : Nat) (comments : String)
       (reason : Option String) (now : Nat) (appr : Approval) (exp : Expense),
       10 ≤ jsTrimLen comments →
       db.findPendingApproval approvalId userId companyId = some appr →
       db.findExpense appr.expense_id = some exp →
       exp.status ≠ ExpenseStatus.submitted →
       rejectExpense db userId companyId approvalId comments reason now =
         Except.error WfError.invalidStateTransition ∧
       resultState db
         (rejectExpense db userId companyId approvalId comments reason now)
         = db) := by
  refine ⟨?_, ?_, ?_⟩
  · intro db userId companyId expenseId now newApprovalId exp hfind hstat
    unfold submitExpense
    rw [hfind]
    simp only []
    rw [if_pos hstat]
    exact ⟨rfl, rfl⟩
  · intro db userId companyId approvalId comments now newApprovalId appr exp
      hpa hexp hstat
    unfold approveExpense
    rw [hpa]
    simp only [hexp]
    rw [if_pos hstat]
    exact ⟨rfl, rfl⟩
  · intro db userId companyId approvalId comments reason now appr exp
      hlen hpa hexp hstat
    unfold rejectExpense
    rw [if_neg (by omega), hpa]
    simp only [hexp]
    rw [if_pos hstat]
    exact ⟨rfl, rfl⟩

/-- Witness for C6: submitting the already-submitted fixture expense,
and approving / rejecting Approval 20 while its expense is back in `draft`,
all fail with the invalid-state-transition error. -/
theorem invalidStateGuard_spec_witness :
    seqExpense.status ≠ ExpenseStatus.draft ∧
    submitExpense seqDb 1 1 10 5 100 =
      Except.error WfError.invalidStateTransition ∧
    draftExpense.status ≠ ExpenseStatus.submitted ∧
    approveExpense draftDb 2 1 20 none 7 99 =
      Except.error WfError.invalidStateTransition ∧
    rejectExpense draftDb 2 1 20 "Missing receipt, resubmit" none 7 =
      Except.error WfError.invalidStateTransition :=
  ⟨by decide,
   (invalidStateGuard_spec.1 seqDb 1 1 10 5 100 seqExpense (by decide)
     (by decide)).1,
   by decide,
   (invalidStateGuard_spec.2.1 draftDb 2 1 20 none 7 99 seqApproval
     draftExpense (by decide) (by decide) (by decide)).1,
   (invalidStateGuard_spec.2.2 draftDb 2 1 20 "Missing receipt, resubmit"
     none 7 seqApproval draftExpense (by decide) (by decide) (by decide)
     (by decide)).1⟩

/-- C8: delegating a pending Approval to an active same-company user
reassigns only the `approver_id` and the delegation metadata — the status
stays `pending`, the level is unchanged, no Approval row is created or
removed, and the other tables are untouched; when the delegate is
inactive / missing / cross-company the call fails with a validation error,
and when the target Approval is not the caller's pending one it fails
not-found — in both cases with no mutation. -/
theorem delegateApproval_spec :
    (∀ (db : DB) (userId companyId approvalId delegateTo : Nat)
       (comments : Option String) (now : Nat) (appr : Approval) (d : User),
       db.users.find? (fun u => u.id == delegateTo &&
         u.company_id == companyId && u.is_active) = some d →
       db.findApprovalById approvalId = some appr →
       appr.approver_id = userId →
       appr.company_id = companyId →
       appr.status = ApprovalStatus.pending →
       ∃ db2,
         delegateApproval db userId companyId approvalId delegateTo comments
           now = Except.ok db2 ∧
         db2.findApprovalById appr.id =
           some (delegatedRow userId delegateTo comments now appr) ∧
         (delegatedRow userId delegateTo comments now appr).status =
           ApprovalStatus.pending ∧
         (delegatedRow userId delegateTo comments now appr).approval_level =
           appr.approval_level ∧
         db2.approvals.length = db.approvals.length ∧
         db2.expenses = db.expenses ∧
         db2.users = db.users ∧
         db2.companies = db.companies) ∧
    (∀ (db : DB) (userId companyId approvalId delegateTo : Nat)
       (comments : Option String) (now : Nat),
       db.users.find? (fun u => u.id == delegateTo &&
         u.company_id == companyId && u.is_active) = none →
       delegateApproval db userId companyId approvalId delegateTo comments now
         = Except.error WfError.validationError ∧
       resultState db (delegateApproval db userId companyId approvalId
         delegateTo comments now) = db) ∧
    (∀ (db : DB) (userId companyId approvalId delegateTo : Nat)
       (comments : Option String) (now : Nat) (d : User),
       db.users.find? (fun u => u.id == delegateTo &&
         u.company_id == companyId && u.is_active) = some d →
       db.findPendingApproval approvalId userId companyId = none →
       delegateApproval db userId companyId approvalId delegateTo comments now
         = Except.error WfError.notFound ∧
       resultState db (delegateApproval db userId companyId approvalId
         delegateTo comments now) = db) := by
  refine ⟨?_, ?_, ?_⟩
  · intro db userId companyId approvalId delegateTo comments now appr d
      hdel hfind happr hcomp hpend
    have hpa := findPendingApproval_intro db approvalId userId companyId appr
      hfind happr hcomp hpend
    have hid : appr.id = approvalId := by
      unfold DB.findApprovalById at hfind
      have := List.find?_some hfind
      simpa using this
    have hfind2 : db.findApprovalById appr.id = some appr := by
      rw [hid]; exact hfind
    unfold delegateApproval
    rw [hdel, hpa]
    refine ⟨_, rfl, ?_, by simp [delegatedRow, hpend], rfl, ?_, rfl, rfl, rfl⟩
    · exact findApprovalById_updateApprovalRow db appr.id
        (fun a => { a with approver_id := delegateTo,
                           delegated_by := some userId,
                           delegation_comments := comments,
                           delegated_at := some now })
        (fun a => rfl) appr hfind2
    · simp [DB.updateApprovalRow]
  · intro db userId companyId approvalId delegateTo comments now hdel
    unfold delegateApproval
    rw [hdel]
    exact ⟨rfl, rfl⟩
  · intro db userId companyId approvalId delegateTo comments now d hdel hpa
    unfold delegateApproval
    rw [hdel, hpa]
    exact ⟨rfl, rfl⟩

/-- Witness for C8: delegating Approval 20 from user 2 to the active user 3
succeeds with only the delegation columns changed; delegating to the
nonexistent user 99 is a validation failure; delegating the nonexistent
Approval 999 is a not-found failure. -/
theorem delegateApproval_spec_witness :
    seqAdmin.is_active = true ∧
    (∃ db2,
      delegateApproval seqDb 2 1 20 3 (some "on leave") 7 = Except.ok db2 ∧
      db2.findApprovalById seqApproval.id =
        some (delegatedRow 2 3 (some "on leave") 7 seqApproval) ∧
      (delegatedRow 2 3 (some "on leave") 7 seqApproval).status =
        ApprovalStatus.pending ∧
      (delegatedRow 2 3 (some "on leave") 7 seqApproval).approval_level =
        seqApproval.approval_level ∧
      db2.approvals.length = seqDb.approvals.length ∧
      db2.expenses = seqDb.expenses ∧
      db2.users = seqDb.users ∧
      db2.companies = seqDb.companies) ∧
    delegateApproval seqDb 2 1 20 99 none 7 =
      Except.error WfError.validationError ∧
    delegateApproval seqDb 2 1 999 3 none 7 =
      Except.error WfError.notFound :=
  ⟨by decide,
   delegateApproval_spec.1 seqDb 2 1 20 3 (some "on leave") 7 seqApproval
     seqAdmin (by decide) (by decide) (by decide) (by decide) (by decide),
   (delegateApproval_spec.2.1 seqDb 2 1 20 99 none 7 (by decide)).1,
   (delegateApproval_spec.2.2 seqDb 2 1 999 3 none 7 seqAdmin (by decide)
     (by decide)).1⟩

theorem submitWhere_intro (db : DB) (expenseId userId companyId : Nat)
    (exp : Expense) (h : db.findExpense expenseId = some exp)
    (hu : exp.user_id = userId) (hc : exp.company_id = companyId) :
    db.expenses.find? (fun e => e.id == expenseId && e.user_id == userId &&
      e.company_id == companyId) = some exp := by
  unfold DB.findExpense at h
  have hid : (exp.id == expenseId) = true := by
    have := List.find?_some h
    simpa using this
  refine find?_strengthen _ _ ?_ _ _ h ?_
  · intro a hq
    simp only [Bool.and_eq_true] at hq
    exact hq.1.1
  · simp [hid, hu, hc]

theorem getFirstApprover_noSettings (db : DB) (exp : Expense) (company : Company)
    (hs : company.approval_settings = none) :
    getFirstApprover db exp company = none := by
  unfold getFirstApprover
  rw [hs]

theorem getFirstApprover_disabled (db : DB) (exp : Expense) (company : Company)
    (s : ApprovalSettings) (hs : company.approval_settings = some s)
    (hdis : s.enabled = false) :
    getFirstApprover db exp company = none := by
  unfold getFirstApprover
  rw [hs]
  simp [hdis]

theorem getFirstApprover_noLevels (db : DB) (exp : Expense) (company : Company)
    (s : ApprovalSettings) (hs : company.approval_settings = some s)
    (ht : s.workflow_type = "sequential") (hlev : s.approval_levels = []) :
    getFirstApprover db exp company = none := by
  unfold getFirstApprover
  rw [hs]
  by_cases he : s.enabled
  · simp [he, ht, hlev]
  · simp [he]

theorem getFirstApprover_condFallback (db : DB) (exp : Expense)
    (company : Company) (s : ApprovalSettings)
    (hs : company.approval_settings = some s) (he : s.enabled = true)
    (ht : s.workflow_type = "conditional") (hrules : s.approval_rules = []) :
    getFirstApprover db exp company = defaultManagerApprover db exp := by
  unfold getFirstApprover
  rw [hs]
  simp [he, ht, hrules]

theorem getNextApprover_noCompany (db : DB) (exp : Expense) (lvl : Nat)
    (hc : db.findCompany exp.company_id = none) :
    getNextApprover db exp lvl = none := by
  unfold getNextApprover
  rw [hc]

theorem getNextApprover_noSettings (db : DB) (exp : Expense) (lvl : Nat)
    (c : Company) (hc : db.findCompany exp.company_id = some c)
    (hs : c.approval_settings = none) :
    getNextApprover db exp lvl = none := by
  unfold getNextApprover
  rw [hc]
  simp [hs]

theorem submitExpense_noApprover (db : DB)
    (userId companyId expenseId now newApprovalId : Nat)
    (exp : Expense) (company : Company)
    (hfind : db.findExpense expenseId = some exp)
    (hu : exp.user_id = userId) (hc : exp.company_id = companyId)
    (hdraft : exp.status = ExpenseStatus.draft)
    (hcomp : db.findCompany companyId = some company)
    (hnone : getFirstApprover db exp company = none) :
    autoApprovedOutcome db exp now
      (submitExpense db userId companyId expenseId now newApprovalId) := by
  have hw := submitWhere_intro db expenseId userId companyId exp hfind hu hc
  have heid : exp.id = expenseId := by
    unfold DB.findExpense at hfind
    have := List.find?_some hfind
    simpa using this
  have hexp2 : db.findExpense exp.id = some exp := by rw [heid]; exact hfind
  unfold submitExpense
  rw [hw]
  simp only [hdraft, hcomp]
  rw [if_neg (by simp)]
  rw [hnone]
  exact ⟨_, rfl, rfl, findExpense_updateExpenseRow db exp.id
    (fun e => { e with status := ExpenseStatus.approved,
                       submitted_at := some now, approved_at := some now })
    (fun e => rfl) exp hexp2⟩

theorem submitExpense_withApprover (db : DB)
    (userId companyId expenseId now newApprovalId : Nat)
    (exp : Expense) (company : Company) (approver : User)
    (hfind : db.findExpense expenseId = some exp)
    (hu : exp.user_id = userId) (hc : exp.company_id = companyId)
    (hdraft : exp.status = ExpenseStatus.draft)
    (hcomp : db.findCompany companyId = some company)
    (hsome : getFirstApprover db exp company = some approver) :
    submittedOutcome db exp approver.id now newApprovalId
      (submitExpense db userId companyId expenseId now newApprovalId) := by
  have hw := submitWhere_intro db expenseId userId companyId exp hfind hu hc
  have heid : exp.id = expenseId := by
    unfold DB.findExpense at hfind
    have := List.find?_some hfind
    simpa using this
  have hexp2 : db.findExpense exp.id = some exp := by rw [heid]; exact hfind
  unfold submitExpense
  rw [hw]
  simp only [hdraft, hcomp]
  rw [if_neg (by simp)]
  rw [hsome]
  refine ⟨_, rfl, ?_, ?_, ?_⟩
  · simp [newApprovalRecord, DB.addApproval, DB.updateExpenseRow]
  · simp [DB.addApproval, DB.updateExpenseRow]
  · exact findExpense_updateExpenseRow
      (db.addApproval (newApprovalRecord newApprovalId exp approver.id 1))
      exp.id
      (fun e => { e with status := ExpenseStatus.submitted,
                         submitted_at := some now })
      (fun e => rfl) exp hexp2

/-- C1 counterexample: under an enabled conditional configuration with an
empty rule list, submitting the managed employee's draft expense does NOT
auto-approve — `getFirstApprover` falls through to the default
manager-approval branch, a pending Approval is created and the expense
becomes `submitted`, contradicting the claim's "no rules implies direct
draft-to-approved transition with no Approval record". -/
theorem submitExpense_autoApprove_counterexample :
    condNoRuleSettings.enabled = true ∧
    condNoRuleSettings.workflow_type = "conditional" ∧
    condNoRuleSettings.approval_rules = [] ∧
    c1Expense.status = ExpenseStatus.draft ∧
    (resultState c1Db (submitExpense c1Db 1 1 10 5 100)).approvals.length = 1 ∧
    ((resultState c1Db (submitExpense c1Db 1 1 10 5 100)).findExpense 10).map
      Expense.status = some ExpenseStatus.submitted := by decide

/-- C1 amended: a draft expense submitted under a configuration that
disables approval, or a sequential configuration with no approval levels,
transitions directly from draft to approved (with `submitted_at` and
`approved_at` set) and creates no Approval record; under a conditional
configuration with no rules this holds only when the manager fallback
resolves nobody (the submitter has no manager on record) — otherwise a
level-1 pending Approval for the submitter's manager is created and the
expense becomes `submitted`. -/
theorem submitExpense_autoApprove_amended :
    (∀ (db : DB) (userId companyId expenseId now newApprovalId : Nat)
       (exp : Expense) (company : Company) (s : ApprovalSettings),
       db.findExpense expenseId = some exp →
       exp.user_id = userId → exp.company_id = companyId →
       exp.status = ExpenseStatus.draft →
       db.findCompany companyId = some company →
       company.approval_settings = some s → s.enabled = false →
       autoApprovedOutcome db exp now
         (submitExpense db userId companyId expenseId now newApprovalId)) ∧
    (∀ (db : DB) (userId companyId expenseId now newApprovalId : Nat)
       (exp : Expense) (company : Company) (s : ApprovalSettings),
       db.findExpense expenseId = some exp →
       exp.user_id = userId → exp.company_id = companyId →
       exp.status = ExpenseStatus.draft →
       db.findCompany companyId = some company →
       company.approval_settings = some s →
       s.workflow_type = "sequential" → s.approval_levels = [] →
       autoApprovedOutcome db exp now
         (submitExpense db userId companyId expenseId now newApprovalId)) ∧
    (∀ (db : DB) (userId companyId expenseId now newApprovalId : Nat)
       (exp : Expense) (company : Company) (s : ApprovalSettings),
       db.findExpense expenseId = some exp →
       exp.user_id = userId → exp.company_id = companyId →
       exp.status = ExpenseStatus.draft →
       db.findCompany companyId = some company →
       company.approval_settings = some s → s.enabled = true →
       s.workflow_type = "conditional" → s.approval_rules = [] →
       defaultManagerApprover db exp = none →
       autoApprovedOutcome db exp now
         (submitExpense db userId companyId expenseId now newApprovalId)) ∧
    (∀ (db : DB) (userId companyId expenseId now newApprovalId : Nat)
       (exp : Expense) (company : Company) (s : ApprovalSettings) (mgr : User),
       db.findExpense expenseId = some exp →
       exp.user_id = userId → exp.company_id = companyId →
       exp.status = ExpenseStatus.draft →
       db.findCompany companyId = some company →
       company.approval_settings = some s → s.enabled = true →
       s.workflow_type = "conditional" → s.approval_rules = [] →
       defaultManagerApprover db exp = some mgr →
       submittedOutcome db exp mgr.id now newApprovalId
         (submitExpense db userId companyId expenseId now newApprovalId)) := by
  refine ⟨?_, ?_, ?_, ?_⟩
  · intro db userId companyId expenseId now newApprovalId exp company s
      hfind hu hc hdraft hcomp hs hdis
    exact submitExpense_noApprover db userId companyId expenseId now
      newApprovalId exp company hfind hu hc hdraft hcomp
      (getFirstApprover_disabled db exp company s hs hdis)
  · intro db userId companyId expenseId now newApprovalId exp company s
      hfind hu hc hdraft hcomp hs ht hlev
    exact submitExpense_noApprover db userId companyId expenseId now
      newApprovalId exp company hfind hu hc hdraft hcomp
      (getFirstApprover_noLevels db exp company s hs ht hlev)
  · intro db userId companyId expenseId now newApprovalId exp company s
      hfind hu hc hdraft hcomp hs he ht hrules hdm
    exact submitExpense_noApprover db userId companyId expenseId now
      newApprovalId exp company hfind hu hc hdraft hcomp
      ((getFirstApprover_condFallback db exp company s hs he ht hrules).trans hdm)
  · intro db userId companyId expenseId now newApprovalId exp company s mgr
      hfind hu hc hdraft hcomp hs he ht hrules hdm
    exact submitExpense_withApprover db userId companyId expenseId now
      newApprovalId exp company mgr hfind hu hc hdraft hcomp
      ((getFirstApprover_condFallback db exp company s hs he ht hrules).trans hdm)

/-- Witness for C1 amended: all four branches at concrete databases. -/
theorem submitExpense_autoApprove_amended_witness :
    autoApprovedOutcome disabledDb c1Expense 5
      (submitExpense disabledDb 1 1 10 5 100) ∧
    autoApprovedOutcome emptySeqDb c1Expense 5
      (submitExpense emptySeqDb 1 1 10 5 100) ∧
    autoApprovedOutcome c1LoneDb c1Expense 5
      (submitExpense c1LoneDb 1 1 10 5 100) ∧
    submittedOutcome c1Db c1Expense 2 5 100
      (submitExpense c1Db 1 1 10 5 100) :=
  ⟨submitExpense_autoApprove_amended.1 disabledDb 1 1 10 5 100 c1Expense
     disabledCompany disabledSettings (by decide) (by decide) (by decide)
     (by decide) (by decide) (by decide) (by decide),
   submitExpense_autoApprove_amended.2.1 emptySeqDb 1 1 10 5 100 c1Expense
     emptySeqCompany emptySeqSettings (by decide) (by decide) (by decide)
     (by decide) (by decide) (by decide) (by decide) (by decide),
   submitExpense_autoApprove_amended.2.2.1 c1LoneDb 1 1 10 5 100 c1Expense
     condNoRuleCompany condNoRuleSettings (by decide) (by decide) (by decide)
     (by decide) (by decide) (by decide) (by decide) (by decide) (by decide)
     (by decide),
   submitExpense_autoApprove_amended.2.2.2 c1Db 1 1 10 5 100 c1Expense
     condNoRuleCompany condNoRuleSettings seqManager (by decide) (by decide)
     (by decide) (by decide) (by decide) (by decide) (by decide) (by decide)
     (by decide) (by decide)⟩

/-- C7 counterexample: with a present but DISABLED two-level sequential
configuration, first resolution (`getFirstApprover`) returns no approver, yet
next-level resolution (`getNextApprover`) after level 1 still returns user 3:
`getNextApprover` never consults the `enabled` flag, contradicting the
claim's "for every resolution invocation". -/
theorem resolutionDisabledFlag_counterexample :
    disabledSettings.enabled = false ∧
    getFirstApprover disabledDb c1Expense disabledCompany = none ∧
    getNextApprover disabledDb c1Expense 1 = some seqAdmin := by decide

/-- C7 amended: first resolution returns "no further approval required" when
the configuration is absent or explicitly disabled; subsequent resolution
returns it when the company row or its configuration is absent — but it does
not consult the `enabled` flag, so only the absence cases hold for it. -/
theorem resolutionDisabledFlag_amended :
    (∀ (db : DB) (exp : Expense) (company : Company),
       company.approval_settings = none →
       getFirstApprover db exp company = none) ∧
    (∀ (db : DB) (exp : Expense) (company : Company) (s : ApprovalSettings),
       company.approval_settings = some s → s.enabled = false →
       getFirstApprover db exp company = none) ∧
    (∀ (db : DB) (exp : Expense) (lvl : Nat),
       db.findCompany exp.company_id = none →
       getNextApprover db exp lvl = none) ∧
    (∀ (db : DB) (exp : Expense) (lvl : Nat) (c : Company),
       db.findCompany exp.company_id = some c → c.approval_settings = none →
       getNextApprover db exp lvl = none) :=
  ⟨getFirstApprover_noSettings, getFirstApprover_disabled,
   getNextApprover_noCompany, getNextApprover_noSettings⟩

/-- Witness for C7 amended: all four branches at concrete databases. -/
theorem resolutionDisabledFlag_amended_witness :
    getFirstApprover noCfgDb c1Expense noCfgCompany = none ∧
    getFirstApprover disabledDb c1Expense disabledCompany = none ∧
    getNextApprover emptyCompanyDb c1Expense 0 = none ∧
    getNextApprover noCfgDb c1Expense 0 = none :=
  ⟨resolutionDisabledFlag_amended.1 noCfgDb c1Expense noCfgCompany (by decide),
   resolutionDisabledFlag_amended.2.1 disabledDb c1Expense disabledCompany
     disabledSettings (by decide) (by decide),
   resolutionDisabledFlag_amended.2.2.1 emptyCompanyDb c1Expense 0 (by decide),
   resolutionDisabledFlag_amended.2.2.2 noCfgDb c1Expense 0 noCfgCompany
     (by decide) (by decide)⟩

/-- The source's conditional rule test coincides with the amended spec
reading of the range (inclusive bounds, absent-or-zero max unbounded). -/
theorem ruleMatches_eq_amended (amount : ℚ) (r : ApprovalRule) :
    ruleMatches amount r = ruleContainsAmended r amount := by
  unfold ruleMatches ruleContainsAmended
  cases hm : r.max_amount with
  | none => rfl
  | some m =>
    by_cases h0 : m = 0
    · simp [h0]
    · simp [h0]

/-- C4 counterexample: a conditional configuration whose single rule has
`max_amount = 0` and amount 5: the claim's inclusive range `[0, 0]` does not
contain 5, so the claim says resolution returns no approver — but the code's
falsy-max check treats the rule as unbounded and returns user 2. -/
theorem conditionalRange_counterexample :
    zeroCondSettings.workflow_type = "conditional" ∧
    zeroCondSettings.approval_rules = [zeroMaxRule] ∧
    ruleContainsSpec zeroMaxRule c4Expense.amount_in_company_currency = false ∧
    getNextApprover zeroCondDb c4Expense 0 = some seqManager := by decide

/-- C4 amended: conditional resolution returns the approver of the FIRST
rule in configuration order whose range contains the company-currency
amount, where both bounds are inclusive and a `max_amount` that is absent OR
zero (JavaScript-falsy) means unbounded above; an amount exactly equal to a
rule's `max_amount` matches that rule. -/
theorem conditionalRange_amended :
    (∀ (amount : ℚ) (r : ApprovalRule),
       ruleMatches amount r = ruleContainsAmended r amount) ∧
    (∀ (db : DB) (exp : Expense) (lvl : Nat) (c : Company)
       (s : ApprovalSettings),
       db.findCompany exp.company_id = some c →
       c.approval_settings = some s →
       s.workflow_type = "conditional" →
       getNextApprover db exp lvl =
         (match s.approval_rules.find?
             (fun r => ruleContainsAmended r exp.amount_in_company_currency) with
          | some r =>
            (match r.approver_id with
             | some aid => db.findUser aid
             | none => none)
          | none => none)) ∧
    (∀ (db : DB) (exp : Expense) (company : Company) (s : ApprovalSettings)
       (r : ApprovalRule) (aid : Nat),
       company.approval_settings = some s → s.enabled = true →
       s.workflow_type = "conditional" →
       s.approval_rules.find?
         (fun r => ruleContainsAmended r exp.amount_in_company_currency) =
         some r →
       r.approver_id = some aid →
       getFirstApprover db exp company = db.findUser aid) ∧
    (∀ (r : ApprovalRule) (m : ℚ), r.max_amount = some m →
       r.min_amount ≤ m → ruleContainsAmended r m = true) := by
  have hfun : ∀ (amount : ℚ), ruleMatches amount =
      (fun r => ruleContainsAmended r amount) :=
    fun amount => funext (fun r => ruleMatches_eq_amended amount r)
  refine ⟨ruleMatches_eq_amended, ?_, ?_, ?_⟩
  · intro db exp lvl c s hc hs ht
    unfold getNextApprover
    rw [hc]
    simp [hs, ht, hfun]
  · intro db exp company s r aid hs he ht hfound hra
    unfold getFirstApprover
    rw [hs]
    rw [hfun exp.amount_in_company_currency] at *
    simp [he, ht, hfound, hra]
  · intro r m hmax hmin
    unfold ruleContainsAmended
    rw [hmax]
    by_cases h0 : m = 0
    · subst h0
      simp [hmin]
    · simp [hmin, h0]

/-- Witness for C4 amended: the predicate equivalence at the zero-max rule,
next-approver resolution over the zero-max configuration, the boundary
example (amount 100 resolves to rule A's approver, user 2), and the
boundary-inclusion fact itself. -/
theorem conditionalRange_amended_witness :
    ruleMatches 5 zeroMaxRule = ruleContainsAmended zeroMaxRule 5 ∧
    getNextApprover zeroCondDb c4Expense 0 =
      (match zeroCondSettings.approval_rules.find?
          (fun r => ruleContainsAmended r c4Expense.amount_in_company_currency) with
       | some r =>
         (match r.approver_id with
          | some aid => zeroCondDb.findUser aid
          | none => none)
       | none => none) ∧
    getFirstApprover boundaryDb boundaryExpense boundaryCompany =
      boundaryDb.findUser 2 ∧
    ruleContainsAmended boundaryRuleA 100 = true :=
  ⟨conditionalRange_amended.1 5 zeroMaxRule,
   conditionalRange_amended.2.1 zeroCondDb c4Expense 0 zeroCondCompany
     zeroCondSettings (by decide) (by decide) (by decide),
   conditionalRange_amended.2.2.1 boundaryDb boundaryExpense boundaryCompany
     boundarySettings boundaryRuleA 2 (by decide) (by decide) (by decide)
     (by decide) (by decide),
   conditionalRange_amended.2.2.2 boundaryRuleA 100 (by decide) (by decide)⟩

/-- A rule with `max_amount = 0` matches every amount at or above its
minimum. -/
theorem ruleMatches_zeroMax (amount : ℚ) (r : ApprovalRule)
    (hmax : r.max_amount = some 0) (hmin : r.min_amount ≤ amount) :
    ruleMatches amount r = true := by
  unfold ruleMatches
  rw [hmax]
  simp [hmin]

/-- C10: a conditional rule whose `max_amount` is the falsy value 0 is
treated as unbounded above: it matches every amount at or above its
`min_amount`, and a configuration whose only rule is such a rule resolves
that rule's approver for arbitrarily large amounts. -/
theorem zeroMaxUnbounded_spec :
    (∀ (amount : ℚ) (r : ApprovalRule), r.max_amount = some 0 →
       r.min_amount ≤ amount → ruleMatches amount r = true) ∧
    (∀ (db : DB) (exp : Expense) (lvl : Nat) (c : Company)
       (s : ApprovalSettings) (r : ApprovalRule) (aid : Nat),
       db.findCompany exp.company_id = some c →
       c.approval_settings = some s →
       s.workflow_type = "conditional" →
       s.approval_rules = [r] →
       r.max_amount = some 0 →
       r.min_amount ≤ exp.amount_in_company_currency →
       r.approver_id = some aid →
       getNextApprover db exp lvl = db.findUser aid) := by
  refine ⟨ruleMatches_zeroMax, ?_⟩
  · intro db exp lvl c s r aid hc hs ht hrules hmax hmin hra
    have hr : ruleMatches exp.amount_in_company_currency r = true :=
      ruleMatches_zeroMax exp.amount_in_company_currency r hmax hmin
    unfold getNextApprover
    rw [hc]
    simp [hs, ht, hrules, List.find?_cons_of_pos _ hr, hra]

/-- Witness for C10: the rule with range "0 to 0" matches amount 1000000 and
resolution returns its approver. -/
theorem zeroMaxUnbounded_spec_witness :
    zeroMaxRule.max_amount = some 0 ∧
    ruleMatches 1000000 zeroMaxRule = true ∧
    getNextApprover zeroCondDb
      { c4Expense with amount_in_company_currency := 1000000 } 0 =
      zeroCondDb.findUser 2 :=
  ⟨by decide,
   zeroMaxUnbounded_spec.1 1000000 zeroMaxRule (by decide) (by decide),
   zeroMaxUnbounded_spec.2 zeroCondDb
     { c4Expense with amount_in_company_currency := 1000000 } 0
     zeroCondCompany zeroCondSettings zeroMaxRule 2 (by decide) (by decide)
     (by decide) (by decide) (by decide) (by decide) (by decide)⟩

/-- Finding an expense by id that belongs to the caller also satisfies the
role-scoped `WHERE` clause of `updateExpense`, whatever the caller's role. -/
theorem updateWhere_intro (db : DB) (expenseId userId companyId : Nat)
    (callerRole : String) (exp : Expense)
    (h : db.findExpense expenseId = some exp)
    (hu : exp.user_id = userId) (hc : exp.company_id = companyId) :
    db.expenses.find? (fun e => e.id == expenseId &&
      e.company_id == companyId &&
      (callerRole != "employee" || e.user_id == userId)) = some exp := by
  unfold DB.findExpense at h
  have hid : (exp.id == expenseId) = true := by
    have := List.find?_some h
    simpa using this
  refine find?_strengthen _ _ ?_ _ _ h ?_
  · intro a hq
    simp only [Bool.and_eq_true] at hq
    exact hq.1.1
  · simp [hid, hu, hc]

/-- C9 counterexample: the submitter's update of their own `rejected`
expense is refused by the status guard with the invalid-state error and no
mutation — the code forbids mutating a rejected expense, contradicting the
claim's "draft or rejected". -/
theorem updateExpense_rejected_counterexample :
    rejectedExpense.status = ExpenseStatus.rejected ∧
    rejectedExpense.user_id = 1 ∧
    resultError (updateExpense c9Db 1 1 "employee" 10 sampleUpdates) =
      some WfError.invalidStateTransition ∧
    resultState c9Db (updateExpense c9Db 1 1 "employee" 10 sampleUpdates) =
      c9Db := by decide

/-- C9 amended: the status guard of `updateExpense` admits `draft` and
`submitted` and rejects `approved`, `rejected` and `paid`: the submitter's
update of their own expense succeeds and applies the updates exactly when the
status is draft or submitted, and fails with the invalid-state error and no
mutation when it is approved, rejected or paid. -/
theorem updateExpense_guard_amended :
    (∀ (db : DB) (userId companyId : Nat) (callerRole : String)
       (expenseId : Nat) (updates : ExpenseUpdates) (exp : Expense),
       db.findExpense expenseId = some exp →
       exp.user_id = userId → exp.company_id = companyId →
       (exp.status = ExpenseStatus.draft ∨
         exp.status = ExpenseStatus.submitted) →
       ∃ db2, updateExpense db userId companyId callerRole expenseId updates =
           Except.ok db2 ∧
         db2.findExpense exp.id = some (applyExpenseUpdates updates exp)) ∧
    (∀ (db : DB) (userId companyId : Nat) (callerRole : String)
       (expenseId : Nat) (updates : ExpenseUpdates) (exp : Expense),
       db.findExpense expenseId = some exp →
       exp.user_id = userId → exp.company_id = companyId →
       (exp.status = ExpenseStatus.approved ∨
         exp.status = ExpenseStatus.rejected ∨
         exp.status = ExpenseStatus.paid) →
       updateExpense db userId companyId callerRole expenseId updates =
         Except.error WfError.invalidStateTransition ∧
       resultState db
         (updateExpense db userId companyId callerRole expenseId updates)
         = db) := by
  constructor
  · intro db userId companyId callerRole expenseId updates exp
      hfind hu hc hstat
    have hw := updateWhere_intro db expenseId userId companyId callerRole exp
      hfind hu hc
    have heid : exp.id = expenseId := by
      unfold DB.findExpense at hfind
      have := List.find?_some hfind
      simpa using this
    have hexp2 : db.findExpense exp.id = some exp := by rw [heid]; exact hfind
    unfold updateExpense
    rw [hw]
    have hcond : (exp.status == ExpenseStatus.approved ||
        exp.status == ExpenseStatus.rejected ||
        exp.status == ExpenseStatus.paid) = false := by
      rcases hstat with h | h <;> simp [h]
    simp only [hcond]
    rw [if_neg (by simp)]
    exact ⟨_, rfl, findExpense_updateExpenseRow db exp.id
      (applyExpenseUpdates updates) (fun e => rfl) exp hexp2⟩
  · intro db userId companyId callerRole expenseId updates exp
      hfind hu hc hstat
    have hw := updateWhere_intro db expenseId userId companyId callerRole exp
      hfind hu hc
    unfold updateExpense
    rw [hw]
    have hcond : (exp.status == ExpenseStatus.approved ||
        exp.status == ExpenseStatus.rejected ||
        exp.status == ExpenseStatus.paid) = true := by
      rcases hstat with h | h | h <;> simp [h]
    simp only [hcond]
    rw [if_pos (by simp)]
    exact ⟨rfl, rfl⟩

/-- Witness for C9 amended: updating the draft fixture succeeds with the new
title; updating the rejected fixture fails. -/
theorem updateExpense_guard_amended_witness :
    c1Expense.status = ExpenseStatus.draft ∧
    (∃ db2, updateExpense c1Db 1 1 "employee" 10 sampleUpdates =
        Except.ok db2 ∧
      db2.findExpense c1Expense.id =
        some (applyExpenseUpdates sampleUpdates c1Expense)) ∧
    rejectedExpense.status = ExpenseStatus.rejected ∧
    updateExpense c9Db 1 1 "employee" 10 sampleUpdates =
      Except.error WfError.invalidStateTransition :=
  ⟨by decide,
   updateExpense_guard_amended.1 c1Db 1 1 "employee" 10 sampleUpdates
     c1Expense (by decide) (by decide) (by decide) (Or.inl (by decide)),
   by decide,
   (updateExpense_guard_amended.2 c9Db 1 1 "employee" 10 sampleUpdates
     rejectedExpense (by decide) (by decide) (by decide)
     (Or.inr (Or.inl (by decide)))).1⟩

/-- C5 counterexample: in the two-level sequential fixture, bulk-approving
the single id 20 reports it approved, but — unlike the single approve call on
the same state, which creates the level-2 pending Approval — it creates no
new Approval at all: the table still has one row, no pending approval
remains, the expense is left `submitted`, and the resulting state differs
from the single-approve result.  The bulk path is not the per-item Approve
transition. -/
theorem bulkApprove_counterexample :
    (bulkApproveExpenses seqDb 2 1 [20] none 7).approved = [20] ∧
    (bulkApproveExpenses seqDb 2 1 [20] none 7).db.approvals.length = 1 ∧
    ((bulkApproveExpenses seqDb 2 1 [20] none 7).db.approvals.filter
      (fun a => a.status == ApprovalStatus.pending)).length = 0 ∧
    ((bulkApproveExpenses seqDb 2 1 [20] none 7).db.findExpense 10).map
      Expense.status = some ExpenseStatus.submitted ∧
    (resultState seqDb (approveExpense seqDb 2 1 20 none 7 99)).approvals.length
      = 2 ∧
    (bulkApproveExpenses seqDb 2 1 [20] none 7).db ≠
      resultState seqDb (approveExpense seqDb 2 1 20 none 7 99) := by decide

/-- C5 amended: bulk approve folds the listed ids sequentially over ONE
shared state (each later item starts from what the earlier items produced,
inside one shared transaction, not per-item transactions).  A failing item —
lookup miss or an expense that is not `submitted` — only appends a failure
report with its reason and touches nothing else, so later items are
unaffected.  A successful item marks its Approval `approved` with timestamp
and comments and is reported approved; when resolution finds no next
approver the Expense also transitions to `approved`, but when a next
approver exists NO next-level Approval is created and the expenses table is
left untouched, unlike the single approve transition. -/
theorem bulkApprove_amended :
    (∀ (db : DB) (userId companyId : Nat) (comments : Option String)
       (now : Nat) (ids1 ids2 : List Nat),
       bulkApproveExpenses db userId companyId (ids1 ++ ids2) comments now =
         ids2.foldl (bulkApproveStep userId companyId comments now)
           (bulkApproveExpenses db userId companyId ids1 comments now)) ∧
    (∀ (userId companyId : Nat) (comments : Option String) (now : Nat)
       (acc : BulkState) (aid : Nat),
       acc.db.findPendingApproval aid userId companyId = none →
       bulkApproveStep userId companyId comments now acc aid =
         { acc with failed := acc.failed ++
             [{ approval_id := aid,
                reason := "Approval not found or already processed" }] }) ∧
    (∀ (userId companyId : Nat) (comments : Option String) (now : Nat)
       (acc : BulkState) (aid : Nat) (appr : Approval) (exp : Expense),
       acc.db.findApprovalById aid = some appr →
       appr.approver_id = userId → appr.company_id = companyId →
       appr.status = ApprovalStatus.pending →
       acc.db.findExpense appr.expense_id = some exp →
       exp.status ≠ ExpenseStatus.submitted →
       bulkApproveStep userId companyId comments now acc aid =
         { acc with failed := acc.failed ++
             [{ approval_id := aid,
                reason := "Approval not found or already processed" }] }) ∧
    (∀ (userId companyId : Nat) (comments : Option String) (now : Nat)
       (acc : BulkState) (aid : Nat) (appr : Approval) (exp : Expense)
       (next : User),
       acc.db.findApprovalById aid = some appr →
       appr.approver_id = userId → appr.company_id = companyId →
       appr.status = ApprovalStatus.pending →
       acc.db.findExpense appr.expense_id = some exp →
       exp.status = ExpenseStatus.submitted →
       getNextApprover acc.db exp appr.approval_level = some next →
       (bulkApproveStep userId companyId comments now acc aid).approved =
         acc.approved ++ [aid] ∧
       (bulkApproveStep userId companyId comments now acc aid).failed =
         acc.failed ∧
       (bulkApproveStep userId companyId comments now acc aid).db.findApprovalById
         appr.id = some (approvedRow now comments appr) ∧
       (bulkApproveStep userId companyId comments now acc aid).db.expenses =
         acc.db.expenses ∧
       (bulkApproveStep userId companyId comments now acc aid).db.approvals.length
         = acc.db.approvals.length) ∧
    (∀ (userId companyId : Nat) (comments : Option String) (now : Nat)
       (acc : BulkState) (aid : Nat) (appr : Approval) (exp : Expense),
       acc.db.findApprovalById aid = some appr →
       appr.approver_id = userId → appr.company_id = companyId →
       appr.status = ApprovalStatus.pending →
       acc.db.findExpense appr.expense_id = some exp →
       exp.status = ExpenseStatus.submitted →
       getNextApprover acc.db exp appr.approval_level = none →
       (bulkApproveStep userId companyId comments now acc aid).approved =
         acc.approved ++ [aid] ∧
       (bulkApproveStep userId companyId comments now acc aid).failed =
         acc.failed ∧
       (bulkApproveStep userId companyId comments now acc aid).db.findApprovalById
         appr.id = some (approvedRow now comments appr) ∧
       (bulkApproveStep userId companyId comments now acc aid).db.findExpense
         exp.id = some { exp with status := ExpenseStatus.approved,
                                   approved_at := some now } ∧
       (bulkApproveStep userId companyId comments now acc aid).db.approvals.length
         = acc.db.approvals.length) := by
  refine ⟨?_, ?_, ?_, ?_, ?_⟩
  · intro db userId companyId comments now ids1 ids2
    unfold bulkApproveExpenses
    exact List.foldl_append _ _ ids1 ids2
  · intro userId companyId comments now acc aid hpa
    unfold bulkApproveStep
    rw [hpa]
  · intro userId companyId comments now acc aid appr exp
      hfind happr hcomp hpend hexp hsub
    have hpa := findPendingApproval_intro acc.db aid userId companyId appr
      hfind happr hcomp hpend
    unfold bulkApproveStep
    rw [hpa]
    simp only [hexp]
    rw [if_pos hsub]
  · intro userId companyId comments now acc aid appr exp next
      hfind happr hcomp hpend hexp hsub hnext
    have hpa := findPendingApproval_intro acc.db aid userId companyId appr
      hfind happr hcomp hpend
    have hid : appr.id = aid := by
      unfold DB.findApprovalById at hfind
      have := List.find?_some hfind
      simpa using this
    have hfind2 : acc.db.findApprovalById appr.id = some appr := by
      rw [hid]; exact hfind
    have h1 := findApprovalById_updateApprovalRow acc.db appr.id
      (fun a => { a with status := ApprovalStatus.approved,
                         approved_at := some now, comments := comments })
      (fun a => rfl) appr hfind2
    unfold bulkApproveStep
    rw [hpa]
    simp only [hexp, hsub]
    rw [if_neg (by simp)]
    rw [getNextApprover_frame_update, hnext]
    exact ⟨rfl, rfl, h1, rfl, by simp [DB.updateApprovalRow]⟩
  · intro userId companyId comments now acc aid appr exp
      hfind happr hcomp hpend hexp hsub hnext
    have hpa := findPendingApproval_intro acc.db aid userId companyId appr
      hfind happr hcomp hpend
    have hid : appr.id = aid := by
      unfold DB.findApprovalById at hfind
      have := List.find?_some hfind
      simpa using this
    have hfind2 : acc.db.findApprovalById appr.id = some appr := by
      rw [hid]; exact hfind
    have heid : exp.id = appr.expense_id := by
      unfold DB.findExpense at hexp
      have := List.find?_some hexp
      simpa using this
    have hexp2 : acc.db.findExpense exp.id = some exp := by
      rw [heid]; exact hexp
    have h1 := findApprovalById_updateApprovalRow acc.db appr.id
      (fun a => { a with status := ApprovalStatus.approved,
                         approved_at := some now, comments := comments })
      (fun a => rfl) appr hfind2
    unfold bulkApproveStep
    rw [hpa]
    simp only [hexp, hsub]
    rw [if_neg (by simp)]
    rw [getNextApprover_frame_update, hnext]
    refine ⟨rfl, rfl, h1, ?_, ?_⟩
    · exact findExpense_updateExpenseRow
        (acc.db.updateApprovalRow appr.id
          (fun a => { a with status := ApprovalStatus.approved,
                             approved_at := some now, comments := comments }))
        exp.id
        (fun e => { e with status := ExpenseStatus.approved,
                           approved_at := some now })
        (fun e => rfl) exp hexp2
    · simp [DB.updateApprovalRow, DB.updateExpenseRow]

/-- Witness for C5 amended: the fold decomposition, both failure shapes, a
success that leaves the approvals count unchanged (next approver exists),
and a success that approves the expense (final level). -/
theorem bulkApprove_amended_witness :
    bulkApproveExpenses seqDb 2 1 ([20] ++ [999]) none 7 =
      [999].foldl (bulkApproveStep 2 1 none 7)
        (bulkApproveExpenses seqDb 2 1 [20] none 7) ∧
    bulkApproveStep 2 1 none 7 { db := seqDb, approved := [], failed := [] }
      999 =
      { db := seqDb, approved := [],
        failed := [{ approval_id := 999,
                     reason := "Approval not found or already processed" }] } ∧
    bulkApproveStep 2 1 none 7 { db := draftDb, approved := [], failed := [] }
      20 =
      { db := draftDb, approved := [],
        failed := [{ approval_id := 20,
                     reason := "Approval not found or already processed" }] } ∧
    (bulkApproveStep 2 1 none 7
      { db := seqDb, approved := [], failed := [] } 20).approved = [20] ∧
    (bulkApproveStep 2 1 none 7
      { db := seqDb, approved := [], failed := [] } 20).db.approvals.length =
      seqDb.approvals.length ∧
    (bulkApproveStep 2 1 none 7
      { db := oneLevelDb, approved := [], failed := [] } 20).db.findExpense
      seqExpense.id =
      some { seqExpense with status := ExpenseStatus.approved,
                              approved_at := some 7 } :=
  ⟨bulkApprove_amended.1 seqDb 2 1 none 7 [20] [999],
   bulkApprove_amended.2.1 2 1 none 7
     { db := seqDb, approved := [], failed := [] } 999 (by decide),
   bulkApprove_amended.2.2.1 2 1 none 7
     { db := draftDb, approved := [], failed := [] } 20 seqApproval
     draftExpense (by decide) (by decide) (by decide) (by decide) (by decide)
     (by decide),
   (bulkApprove_amended.2.2.2.1 2 1 none 7
     { db := seqDb, approved := [], failed := [] } 20 seqApproval seqExpense
     seqAdmin (by decide) (by decide) (by decide) (by decide) (by decide)
     (by decide) (by decide)).1,
   (bulkApprove_amended.2.2.2.1 2 1 none 7
     { db := seqDb, approved := [], failed := [] } 20 seqApproval seqExpense
     seqAdmin (by decide) (by decide) (by decide) (by decide) (by decide)
     (by decide) (by decide)).2.2.2.2,
   (bulkApprove_amended.2.2.2.2 2 1 none 7
     { db := oneLevelDb, approved := [], failed := [] } 20 seqApproval
     seqExpense (by decide) (by decide) (by decide) (by decide) (by decide)
     (by decide) (by decide)).2.2.2.1⟩
